import Mathlib

/-!
Verification development for the transcribeApp pipeline (src/app.py).

The program is a Streamlit application that, per run, transcribes an
uploaded audio file through an external speech-to-text call
(transcrever_audio), analyses the transcript through an external
text-generation call (analisar_com_ia), renders transcript and analysis
into a PDF (gerar_pdf), and emails the PDF (enviar_email); main performs
input validation and sequences these stages.

Shallow embedding conventions:
  external calls are passed in as explicit outcomes (an Except value for a
  call that can raise, a Bool for the SMTP session); file-system and UI
  effects (temporary files, st.error and st.success messages, the PDF on
  disk) are tracked as explicit fields of effect records; the two
  datetime.now() readings are passed in as pre-formatted strings.
-/

/-- An uploaded audio file: its name, its raw bytes, and the intrinsic
format metadata of those bytes (sample rate, channel count, bit depth).
The program never inspects or changes the bytes or their format, so the
whole value is carried through opaquely. -/
structure AudioData where
  name : String
  bytes : List Nat
  sampleRate : Nat
  channels : Nat
  bitDepth : Nat
deriving Repr, DecidableEq

/-- The format the spec calls normalized audio: mono, 16-bit linear PCM
at 16 kHz. Written from the spec's words, for comparison with what the
code actually hands to the transcription backend. -/
def isNormalizedPCM (a : AudioData) : Prop :=
  a.sampleRate = 16000 ∧ a.channels = 1 ∧ a.bitDepth = 16

instance (a : AudioData) : Decidable (isNormalizedPCM a) := by
  unfold isNormalizedPCM; infer_instance

/-- Effects of one call to transcrever_audio (src/app.py lines 50-75):
the returned value (transcription.text on success, None when the external
call raises), whether the temporary file was created, whether os.unlink
removed it, the audio handed to the external call, and whether st.error
was shown. The code writes the uploaded bytes to a NamedTemporaryFile,
calls the external transcription on that file, and calls os.unlink only
after the call returns; the except branch returns None without any
unlink. -/
structure TransEffects where
  result : Option String
  tempCriado : Bool
  tempRemovido : Bool
  audioEnviado : Option AudioData
  erroMostrado : Bool
deriving Repr, DecidableEq

/-- Embedding of transcrever_audio. The external Whisper call outcome is
the parameter whisper: ok text when the call returns, error when it
raises. -/
def transcrever_audio (audio : AudioData) (whisper : Except Unit String) :
    TransEffects :=
  match whisper with
  | .ok texto =>
      { result := some texto
        tempCriado := true
        tempRemovido := true
        audioEnviado := some audio
        erroMostrado := false }
  | .error _ =>
      { result := none
        tempCriado := true
        tempRemovido := false
        audioEnviado := some audio
        erroMostrado := true }

/-- Effects of one call to analisar_com_ia (src/app.py lines 78-141): the
returned value (response content on success, None when the call raises),
how many requests were issued to the external text-generation capability,
and the user content of the request. The code issues the
chat-completions request unconditionally — there is no guard on the
transcript. -/
structure AnaliseEffects where
  result : Option String
  chamadasExternas : Nat
  conteudoEnviado : Option String
deriving Repr, DecidableEq

/-- Embedding of analisar_com_ia. The external GPT call outcome is the
parameter gpt. The transcript is interpolated into the user message and
the request is always issued, exactly once. -/
def analisar_com_ia (transcricao : String) (gpt : Except Unit String) :
    AnaliseEffects :=
  match gpt with
  | .ok conteudo =>
      { result := some conteudo
        chamadasExternas := 1
        conteudoEnviado := some ("Transcrição:\n\n" ++ transcricao) }
  | .error _ =>
      { result := none
        chamadasExternas := 1
        conteudoEnviado := some ("Transcrição:\n\n" ++ transcricao) }

/-- Index of the last occurrence of a character in a list, if any. -/
def lastIdxOf (c : Char) : List Char → Option Nat
  | [] => none
  | x :: xs =>
    match lastIdxOf c xs with
    | some i => some (i + 1)
    | none => if x = c then some 0 else none

/-- Final path component, as pathlib's Path(...).name: the part after the
last slash. -/
def pathName (s : String) : String :=
  match lastIdxOf '/' s.toList with
  | some i => String.mk (s.toList.drop (i + 1))
  | none => s

/-- Filename without its last suffix, as pathlib's Path(...).stem: the
last dot counts as starting a suffix only when it is neither the first
nor the last character of the name. -/
def pathStem (s : String) : String :=
  match lastIdxOf '.' (pathName s).toList with
  | some i =>
      if 0 < i ∧ i + 1 < (pathName s).toList.length then
        String.mk ((pathName s).toList.take i)
      else pathName s
  | none => pathName s

/-- The PDF path built by gerar_pdf (src/app.py lines 146-149):
PASTA_RESULTADOS / analise_{stem of the source filename}_{timestamp}.pdf,
with the timestamp formatted from the render-time clock. -/
def pdfPath (nome_arquivo timestamp : String) : String :=
  "resultados/" ++ ("analise_" ++ pathStem nome_arquivo ++ "_"
    ++ timestamp ++ ".pdf")

/-- Paragraph styles used by gerar_pdf: CustomTitle, CustomSubtitle,
CustomNormal. -/
inductive Style where
  | title
  | subtitle
  | normal
deriving Repr, DecidableEq

/-- One flowable appended to gerar_pdf's story: a Paragraph with a style,
a Spacer with its two arguments, or a PageBreak. -/
inductive Element where
  | para (texto : String) (estilo : Style)
  | spacer (w h : Nat)
  | pageBreak
deriving Repr, DecidableEq

/-- The horizontal separator line, "_" repeated 100 times. -/
def linhaSeparadora : String := String.mk (List.replicate 100 '_')

/-- The metadata text of the report (src/app.py lines 201-205):
original filename, generation time, generator. -/
def infoText (nome_arquivo dataAnalise : String) : String :=
  "\n    <b>Arquivo Original:</b> " ++ nome_arquivo ++ "<br/>\n    "
    ++ "<b>Data da Análise:</b> " ++ dataAnalise ++ "<br/>\n    "
    ++ "<b>Gerado por:</b> Audio Insights\n    "

/-- The footer text of the report (src/app.py line 257). -/
def rodapeText : String :=
  "<i>Documento gerado automaticamente por Audio Insights | "
    ++ "Powered by OpenAI</i>"

/-- Python's str.startswith for a literal needle: the needle's
characters are a prefix of the string's. Structural (List.isPrefixOf),
so the kernel evaluates it on concrete inputs, unlike String.startsWith,
whose byte-position loop is defined by well-founded recursion. -/
def pyStartsWith (s pre : String) : Bool :=
  pre.toList.isPrefixOf s.toList

/-- Python's str.strip: remove leading and trailing whitespace.
Structural over the character list, kernel-evaluable on concrete
inputs; same semantics as String.trim on the texts this program
handles. -/
def pyStrip (s : String) : String :=
  String.mk
    (((s.toList.dropWhile Char.isWhitespace).reverse.dropWhile
        Char.isWhitespace).reverse)

/-- Python's s[n:] character slice. -/
def pyDrop (s : String) (n : Nat) : String :=
  String.mk (s.toList.drop n)

/-- Replacement loop of pyReplace: at each position, if the (non-empty)
pattern starts here, emit the substitute and skip the pattern, else keep
the character — every occurrence, left to right, non-overlapping. The
fuel is an upper bound on the steps (each consumes at least one
character), making the recursion structural so the kernel can evaluate
it; the callers pass the list's length. -/
def pyReplaceAux (padrao subst : List Char) : Nat → List Char → List Char
  | 0, l => l
  | _ + 1, [] => []
  | fuel + 1, c :: cs =>
    if padrao ≠ [] ∧ padrao.isPrefixOf (c :: cs) then
      subst ++ pyReplaceAux padrao subst fuel (cs.drop (padrao.length - 1))
    else
      c :: pyReplaceAux padrao subst fuel cs

/-- Python's str.replace(old, new) for a non-empty old: replaces every
non-overlapping occurrence, scanning left to right — the same semantics
as String.replace, but kernel-evaluable on concrete inputs. -/
def pyReplace (s padrao subst : String) : String :=
  String.mk (pyReplaceAux padrao.toList subst.toList s.toList.length s.toList)

/-- Splitting loop of pySplitOn: acc holds the current segment reversed;
a (non-empty) separator occurrence closes the segment. Fuel as in
pyReplaceAux. -/
def pySplitAux (sep : List Char) : Nat → List Char → List Char →
    List (List Char)
  | 0, acc, l => [acc.reverse ++ l]
  | _ + 1, acc, [] => [acc.reverse]
  | fuel + 1, acc, c :: cs =>
    if sep ≠ [] ∧ sep.isPrefixOf (c :: cs) then
      acc.reverse :: pySplitAux sep fuel [] (cs.drop (sep.length - 1))
    else
      pySplitAux sep fuel (c :: acc) cs

/-- Python's str.split(sep) for a non-empty sep — the same semantics as
String.splitOn (the empty string yields [""], adjacent separators yield
empty segments), but kernel-evaluable on concrete inputs. -/
def pySplitOn (s sep : String) : List String :=
  (pySplitAux sep.toList (s.toList.length + 1) [] s.toList).map String.mk

/-- How gerar_pdf converts one non-blank markdown line of the analysis
into a flowable (src/app.py lines 220-238): heading markers give bold
headings, list markers give bullet paragraphs, anything else is a normal
paragraph after the bold-marker replacements of line 237 — whose first
replace already consumes every occurrence of the double-star marker,
leaving the second replace nothing to match. -/
def linhaParaElemento (linha : String) : Element :=
  if pyStartsWith linha "###" then
    .para ("<b>" ++ pyStrip (pyReplace linha "###" "") ++ "</b>") .subtitle
  else if pyStartsWith linha "##" then
    .para ("<b>" ++ pyStrip (pyReplace linha "##" "") ++ "</b>") .subtitle
  else if pyStartsWith linha "#" then
    .para ("<b>" ++ pyStrip (pyReplace linha "#" "") ++ "</b>") .title
  else if pyStartsWith linha "- " || pyStartsWith linha "* " then
    .para ("• " ++ pyStrip (pyDrop linha 2)) .normal
  else
    .para (pyReplace (pyReplace linha "**" "<b>") "**" "</b>") .normal

/-- The flowables produced from the analysis text (src/app.py lines
218-240): one per line of analise.split over newline — an element for a
non-blank line, a Spacer(1, 6) for a blank one. -/
def analiseElementos (analise : String) : List Element :=
  (pySplitOn analise "\n").map fun linha =>
    if pyStrip linha ≠ "" then linhaParaElemento linha else .spacer 1 6

/-- The flowables produced from the transcript (src/app.py lines
248-252): the transcript is split on blank lines and each non-blank
paragraph becomes a stripped Paragraph followed by a Spacer(1, 6). -/
def transcricaoElementos (transcricao : String) : List Element :=
  (pySplitOn transcricao "\n\n").flatMap fun paragrafo =>
    if pyStrip paragrafo ≠ "" then
      [.para (pyStrip paragrafo) .normal, .spacer 1 6]
    else []

/-- The title paragraph of the report. -/
def tituloElem : Element := .para "📊 Análise de Reunião" .title

/-- The metadata paragraph of the report. -/
def metaElem (nome_arquivo dataAnalise : String) : Element :=
  .para (infoText nome_arquivo dataAnalise) .normal

/-- The full story assembled by gerar_pdf (src/app.py lines 194-258):
title block, metadata, separator, analysis header, the analysis
flowables, a PageBreak, the transcript header, the transcript flowables,
and the footer, in that order. -/
def gerarStory (nome_arquivo dataAnalise transcricao analise : String) :
    List Element :=
  [tituloElem, .spacer 1 12,
   metaElem nome_arquivo dataAnalise, .spacer 1 20,
   .para linhaSeparadora .normal, .spacer 1 20,
   .para "🧠 ANÁLISE E INSIGHTS" .subtitle, .spacer 1 12]
  ++ analiseElementos analise
  ++ [.pageBreak,
      .para "📝 TRANSCRIÇÃO COMPLETA" .subtitle, .spacer 1 12]
  ++ transcricaoElementos transcricao
  ++ [.spacer 1 20, .para linhaSeparadora .normal,
      .para rodapeText .normal]

/-- Result of gerar_pdf: the path it returns and the document it built
at that path. -/
structure PdfResult where
  path : String
  story : List Element
deriving Repr, DecidableEq

/-- Embedding of gerar_pdf (src/app.py lines 144-263). The two
datetime.now() readings are the parameters timestamp (for the filename)
and dataAnalise (for the metadata block). This computes the path and
the flowable list; whether every Paragraph constructor in that list
accepts its markup (reportlab raises ValueError on unbalanced tags) is
expressed by storyConstruivel over the story. -/
def gerar_pdf (nome_arquivo transcricao analise timestamp dataAnalise :
    String) : PdfResult :=
  { path := pdfPath nome_arquivo timestamp
    story := gerarStory nome_arquivo dataAnalise transcricao analise }

/-- Effects of one call to enviar_email (src/app.py lines 266-316): True
is returned when the SMTP session completes, False when any step raises,
in which case st.error is shown inside the function. The function never
deletes or rewrites the PDF it attaches. -/
structure EmailEffects where
  sucesso : Bool
  erroMostrado : Bool
deriving Repr, DecidableEq

/-- Embedding of enviar_email. The outcome of the SMTP session is the
parameter smtp_ok. -/
def enviar_email (smtp_ok : Bool) : EmailEffects :=
  if smtp_ok then { sucesso := true, erroMostrado := false }
  else { sucesso := false, erroMostrado := true }

/-- The four user-supplied inputs checked by main (src/app.py lines
418-434) plus the SMTP settings (which have default values in the form
and are not checked). The uploaded file is None when no upload was
made. -/
structure Inputs where
  openai_key : String
  audio_file : Option AudioData
  email_destino : String
  email_remetente : String
  senha_email : String
  smtp_servidor : String
  smtp_porta : Nat
deriving Repr, DecidableEq

/-- Outcomes of the run's external interactions: the speech-to-text
call, the text-generation call, the SMTP session, and the two formatted
clock readings taken during rendering. -/
structure Externos where
  whisper : Except Unit String
  gpt : Except Unit String
  smtp_ok : Bool
  timestamp : String
  dataAnalise : String
deriving Repr

/-- The st.session_state fields initialised by inicializar_sessao
(src/app.py lines 38-47). -/
structure Session where
  processado : Bool
  transcricao : String
  analise : String
  pdf_path : Option String
deriving Repr, DecidableEq

/-- Observable outcome of one press of the process button: the session
state afterwards, the st.error and st.success messages shown, how many
times each later stage's external interaction ran, how many usage
records were written (the program has no usage-recording code, so no
path increments this), how many temporary audio files were created and
how many remain on disk, the PDF left on disk if rendering ran, and the
audio handed to the speech-to-text call if transcription ran. -/
structure RunResult where
  session : Session
  erros : List String
  sucessos : List String
  chamadasAnalise : Nat
  chamadasRender : Nat
  chamadasEnvio : Nat
  registrosUso : Nat
  tempCriados : Nat
  tempRestantes : Nat
  pdfNoDisco : Option String
  audioEnviado : Option AudioData
deriving Repr, DecidableEq

/-- Result of a run stopped by input validation: one error message, the
session untouched, and no effects at all. -/
def resultadoValidacao (st : Session) (msg : String) : RunResult :=
  { session := st
    erros := [msg]
    sucessos := []
    chamadasAnalise := 0
    chamadasRender := 0
    chamadasEnvio := 0
    registrosUso := 0
    tempCriados := 0
    tempRestantes := 0
    pdfNoDisco := none
    audioEnviado := none }

/-- Embedding of the processing block of main (src/app.py lines
418-475): the four validations (each of which shows an error and
returns before any stage runs), then transcription, analysis, PDF
rendering, and email dispatch in sequence, each stage running only when
the previous one returned a truthy value. Python falsiness is modelled
exactly: None and the empty string stop the pipeline, any other string
(including whitespace-only) continues it. The exception texts
interpolated into error messages are abstracted to a fixed phrase. -/
def mainRun (inp : Inputs) (ext : Externos) (st0 : Session) : RunResult :=
  if inp.openai_key = "" then
    resultadoValidacao st0
      "❌ Por favor, insira sua OpenAI API Key na barra lateral"
  else
    match inp.audio_file with
    | none =>
        resultadoValidacao st0
          "❌ Por favor, faça upload de um arquivo de áudio"
    | some audio =>
      if inp.email_destino = "" then
        resultadoValidacao st0 "❌ Por favor, insira o email de destino"
      else if inp.email_remetente = "" ∨ inp.senha_email = "" then
        resultadoValidacao st0
          "❌ Por favor, configure o email remetente na barra lateral"
      else
        let te := transcrever_audio audio ext.whisper
        match te.result with
        | none =>
            { session := st0
              erros := ["Erro na transcrição: exceção da chamada externa"]
              sucessos := []
              chamadasAnalise := 0
              chamadasRender := 0
              chamadasEnvio := 0
              registrosUso := 0
              tempCriados := if te.tempCriado then 1 else 0
              tempRestantes := if te.tempRemovido then 0 else 1
              pdfNoDisco := none
              audioEnviado := te.audioEnviado }
        | some t =>
          if t = "" then
            { session := st0
              erros := []
              sucessos := []
              chamadasAnalise := 0
              chamadasRender := 0
              chamadasEnvio := 0
              registrosUso := 0
              tempCriados := if te.tempCriado then 1 else 0
              tempRestantes := if te.tempRemovido then 0 else 1
              pdfNoDisco := none
              audioEnviado := te.audioEnviado }
          else
            let ae := analisar_com_ia t ext.gpt
            match ae.result with
            | none =>
                { session := { st0 with transcricao := t }
                  erros := ["Erro na análise: exceção da chamada externa"]
                  sucessos := ["✅ Transcrição concluída!"]
                  chamadasAnalise := ae.chamadasExternas
                  chamadasRender := 0
                  chamadasEnvio := 0
                  registrosUso := 0
                  tempCriados := if te.tempCriado then 1 else 0
                  tempRestantes := if te.tempRemovido then 0 else 1
                  pdfNoDisco := none
                  audioEnviado := te.audioEnviado }
            | some a =>
              if a = "" then
                { session := { st0 with transcricao := t }
                  erros := []
                  sucessos := ["✅ Transcrição concluída!"]
                  chamadasAnalise := ae.chamadasExternas
                  chamadasRender := 0
                  chamadasEnvio := 0
                  registrosUso := 0
                  tempCriados := if te.tempCriado then 1 else 0
                  tempRestantes := if te.tempRemovido then 0 else 1
                  pdfNoDisco := none
                  audioEnviado := te.audioEnviado }
              else
                let pdf :=
                  gerar_pdf audio.name t a ext.timestamp ext.dataAnalise
                let ee := enviar_email ext.smtp_ok
                if ee.sucesso then
                  { session :=
                      { processado := true
                        transcricao := t
                        analise := a
                        pdf_path := some pdf.path }
                    erros := []
                    sucessos :=
                      ["✅ Transcrição concluída!", "✅ Análise concluída!",
                       "✅ PDF gerado!",
                       "✅ Email enviado com sucesso para "
                         ++ inp.email_destino ++ "!"]
                    chamadasAnalise := ae.chamadasExternas
                    chamadasRender := 1
                    chamadasEnvio := 1
                    registrosUso := 0
                    tempCriados := if te.tempCriado then 1 else 0
                    tempRestantes := if te.tempRemovido then 0 else 1
                    pdfNoDisco := some pdf.path
                    audioEnviado := te.audioEnviado }
                else -- dispatch failed: PDF stays on disk, failure reported
                  { session :=
                      { st0 with
                          transcricao := t
                          analise := a
                          pdf_path := some pdf.path }
                    erros :=
                      ["Erro ao enviar email: exceção da chamada externa",
                       "❌ Erro ao enviar email. Verifique as configurações SMTP."]
                    sucessos :=
                      ["✅ Transcrição concluída!", "✅ Análise concluída!",
                       "✅ PDF gerado!"]
                    chamadasAnalise := ae.chamadasExternas
                    chamadasRender := 1
                    chamadasEnvio := 1
                    registrosUso := 0
                    tempCriados := if te.tempCriado then 1 else 0
                    tempRestantes := if te.tempRemovido then 0 else 1
                    pdfNoDisco := some pdf.path
                    audioEnviado := te.audioEnviado }

/-- Concrete uploaded file used by witnesses: an MP3-named upload whose
bytes are stereo 44.1 kHz audio, i.e. not in the normalized PCM format. -/
def audioEx : AudioData :=
  { name := "reuniao.mp3", bytes := [82, 73, 70, 70],
    sampleRate := 44100, channels := 2, bitDepth := 16 }

/-- Concrete fully-populated form inputs used by witnesses. -/
def inpEx : Inputs :=
  { openai_key := "sk-test", audio_file := some audioEx,
    email_destino := "a@x.com", email_remetente := "b@y.com",
    senha_email := "s", smtp_servidor := "smtp.gmail.com",
    smtp_porta := 587 }

/-- The session state right after inicializar_sessao. -/
def sess0 : Session :=
  { processado := false, transcricao := "", analise := "",
    pdf_path := none }

/-- Concrete all-successful external outcomes used by witnesses. -/
def extOk : Externos :=
  { whisper := .ok "Discutimos o orçamento.",
    gpt := .ok "## Resumo\nTexto.",
    smtp_ok := true, timestamp := "20240101_120000",
    dataAnalise := "01/01/2024 às 12:00" }

/-- External outcomes where the speech-to-text call raises. -/
def extFalhaTranscricao : Externos := { extOk with whisper := .error () }

/-- External outcomes where the speech-to-text call returns the empty
string. -/
def extTranscricaoVazia : Externos := { extOk with whisper := .ok "" }

/-- External outcomes where the speech-to-text call returns
whitespace-only text. -/
def extTranscricaoEspacos : Externos := { extOk with whisper := .ok " " }

/-- External outcomes where the text-generation call raises. -/
def extFalhaAnalise : Externos := { extOk with gpt := .error () }

/-- External outcomes where the SMTP session raises. -/
def extFalhaEnvio : Externos := { extOk with smtp_ok := false }

/-- C1: if the transcription stage fails (the external call raises or
the result is falsy), the run halts before the analysis, render,
dispatch and usage-record stages; likewise a failed or falsy analysis
halts the run before render, dispatch and usage recording. -/
theorem C1_stage_failure_halts_pipeline (inp : Inputs) (ext : Externos)
    (st : Session) :
    ((ext.whisper = Except.error () ∨ ext.whisper = Except.ok "") →
      (mainRun inp ext st).chamadasAnalise = 0 ∧
      (mainRun inp ext st).chamadasRender = 0 ∧
      (mainRun inp ext st).chamadasEnvio = 0 ∧
      (mainRun inp ext st).registrosUso = 0) ∧
    ((ext.gpt = Except.error () ∨ ext.gpt = Except.ok "") →
      (mainRun inp ext st).chamadasRender = 0 ∧
      (mainRun inp ext st).chamadasEnvio = 0 ∧
      (mainRun inp ext st).registrosUso = 0) := by
  constructor
  · intro h
    rcases h with h | h <;>
      simp only [mainRun, h, transcrever_audio] <;>
      (repeat' split) <;>
      simp_all [resultadoValidacao]
  · intro h
    rcases h with h | h <;>
      simp only [mainRun, h, analisar_com_ia] <;>
      (repeat' split) <;>
      simp_all [resultadoValidacao, transcrever_audio, analisar_com_ia]

/-- Witness for C1 at a concrete run whose transcription call raises. -/
theorem C1_stage_failure_halts_pipeline_witness :
    (mainRun inpEx extFalhaTranscricao sess0).chamadasAnalise = 0 ∧
    (mainRun inpEx extFalhaTranscricao sess0).chamadasRender = 0 ∧
    (mainRun inpEx extFalhaTranscricao sess0).chamadasEnvio = 0 ∧
    (mainRun inpEx extFalhaTranscricao sess0).registrosUso = 0 :=
  (C1_stage_failure_halts_pipeline inpEx extFalhaTranscricao sess0).1
    (Or.inl rfl)

/-- C2 counterexample: in a run whose external transcription call
raises, the temporary audio file is created but never removed — it
outlives the run, contradicting release on every exit path. -/
theorem C2_counterexample :
    (transcrever_audio audioEx (Except.error ())).tempCriado = true ∧
    (transcrever_audio audioEx (Except.error ())).tempRemovido = false ∧
    (mainRun inpEx extFalhaTranscricao sess0).tempCriados = 1 ∧
    (mainRun inpEx extFalhaTranscricao sess0).tempRestantes = 1 := by
  decide

/-- C2 amended: the single raw temporary file is created on every call
of the transcription stage, and it is removed exactly on the success
path — when the external call raises, os.unlink is never reached and
the file is left behind. -/
theorem C2_amended_temp_release (audio : AudioData)
    (w : Except Unit String) :
    (transcrever_audio audio w).tempCriado = true ∧
    ((transcrever_audio audio w).tempRemovido = true ↔
      (transcrever_audio audio w).result.isSome) := by
  cases w <;> simp [transcrever_audio]

/-- C3 counterexample: analisar_com_ia on the empty transcript still
issues exactly one external request (call count 1, not 0) and returns
the model output as success — there is no EmptyInputError guard. -/
theorem C3_counterexample :
    (analisar_com_ia "" (Except.ok "análise")).chamadasExternas = 1 ∧
    (analisar_com_ia "" (Except.ok "análise")).result = some "análise" := by
  decide

/-- C3 amended: analisar_com_ia has no empty-input guard — for every
transcript, including the empty one, it issues exactly one external
request carrying the transcript; an empty transcript never reaches the
analysis stage only because the orchestrator halts on a falsy
transcription result. -/
theorem C3_amended_no_empty_guard :
    (∀ (t : String) (g : Except Unit String),
      (analisar_com_ia t g).chamadasExternas = 1 ∧
      (analisar_com_ia t g).conteudoEnviado =
        some ("Transcrição:\n\n" ++ t)) ∧
    (∀ (inp : Inputs) (ext : Externos) (st : Session),
      ext.whisper = Except.ok "" →
        (mainRun inp ext st).chamadasAnalise = 0) := by
  constructor
  · intro t g
    cases g <;> simp [analisar_com_ia]
  · intro inp ext st h
    simp only [mainRun, h, transcrever_audio]
    (repeat' split) <;> simp_all [resultadoValidacao]

/-- Witness for C3 amended at concrete inputs. -/
theorem C3_amended_no_empty_guard_witness :
    (analisar_com_ia "" (Except.ok "x")).chamadasExternas = 1 ∧
    (mainRun inpEx extTranscricaoVazia sess0).chamadasAnalise = 0 :=
  ⟨(C3_amended_no_empty_guard.1 "" (Except.ok "x")).1,
   C3_amended_no_empty_guard.2 inpEx extTranscricaoVazia sess0 rfl⟩

/-- C4 counterexample: when the external call returns whitespace-only
text, transcrever_audio returns it as a successful transcript and the
orchestrator accepts it — the analysis stage runs and the session stores
the whitespace-only transcript, instead of the claimed
TranscriptionError. -/
theorem C4_counterexample :
    (transcrever_audio audioEx (Except.ok " ")).result = some " " ∧
    (mainRun inpEx extTranscricaoEspacos sess0).chamadasAnalise = 1 ∧
    (mainRun inpEx extTranscricaoEspacos sess0).session.transcricao
      = " " := by
  decide

/-- C4 amended: transcrever_audio fails (returns None) exactly when the
external call raises; any returned text is passed through verbatim with
no whitespace validation. The orchestrator separately treats an
empty-string result as failure and halts with the session unchanged,
but whitespace-only non-empty text is accepted as a valid transcript. -/
theorem C4_amended_transcription_validation :
    (∀ audio : AudioData,
      (transcrever_audio audio (Except.error ())).result = none ∧
      (transcrever_audio audio (Except.error ())).erroMostrado = true) ∧
    (∀ (audio : AudioData) (t : String),
      (transcrever_audio audio (Except.ok t)).result = some t) ∧
    (∀ (inp : Inputs) (ext : Externos) (st : Session),
      ext.whisper = Except.ok "" →
        (mainRun inp ext st).chamadasAnalise = 0 ∧
        (mainRun inp ext st).session = st) := by
  refine ⟨fun audio => by simp [transcrever_audio],
          fun audio t => by simp [transcrever_audio],
          fun inp ext st h => ?_⟩
  simp only [mainRun, h, transcrever_audio]
  (repeat' split) <;> simp_all [resultadoValidacao]

/-- Witness for C4 amended at concrete inputs. -/
theorem C4_amended_transcription_validation_witness :
    (transcrever_audio audioEx (Except.error ())).result = none ∧
    (mainRun inpEx extTranscricaoVazia sess0).session = sess0 :=
  ⟨(C4_amended_transcription_validation.1 audioEx).1,
   (C4_amended_transcription_validation.2.2 inpEx extTranscricaoVazia
      sess0 rfl).2⟩

/-- C5 counterexample: the PDF path uses the prefix analise_ and the
stem of the uploaded audio filename, not the claimed relatorio_ prefix
with a submitter name (the renderer receives no submitter name at
all). -/
theorem C5_counterexample :
    (gerar_pdf "reuniao.mp3" "t" "a" "20240101_120000" "d").path
      = "resultados/analise_reuniao_20240101_120000.pdf" ∧
    (gerar_pdf "reuniao.mp3" "t" "a" "20240101_120000" "d").path
      ≠ "resultados/relatorio_alice_20240101_120000.pdf" ∧
    (gerar_pdf "reuniao.mp3" "t" "a" "20240101_120000" "d").path
      ≠ "resultados/relatorio_reuniao_20240101_120000.pdf" := by
  decide

/-- C5 amended: every successful render creates the artifact at
resultados/analise_{stem of the source audio filename}_{timestamp}.pdf,
where the timestamp is the render-time clock reading; the path depends
only on the source filename and that clock reading (not on transcript,
analysis, or any submitter name, which the renderer does not receive),
and it determines the clock reading uniquely. -/
theorem C5_amended_pdf_naming (nome t a t2 a2 ts ts2 d d2 : String) :
    ((gerar_pdf nome t a ts d).path =
      "resultados/" ++ ("analise_" ++ pathStem nome ++ "_" ++ ts
        ++ ".pdf")) ∧
    (gerar_pdf nome t a ts d).path = (gerar_pdf nome t2 a2 ts d2).path ∧
    (pdfPath nome ts = pdfPath nome ts2 → ts = ts2) := by
  refine ⟨rfl, rfl, fun h => ?_⟩
  have hd : (pdfPath nome ts).data = (pdfPath nome ts2).data := by rw [h]
  simp only [pdfPath, String.data_append] at hd
  apply String.ext
  simp only [List.append_assoc] at hd
  have h2 := List.append_cancel_left hd
  have h3 := List.append_cancel_left h2
  have h4 := List.append_cancel_left h3
  have h5 := List.append_cancel_left h4
  exact List.append_cancel_right h5

/-- Witness for C5 amended at concrete inputs, discharging the
injectivity hypothesis at equal timestamps. -/
theorem C5_amended_pdf_naming_witness :
    ((gerar_pdf "reuniao.mp3" "x" "y" "20240101_120000" "d").path =
      "resultados/" ++ ("analise_" ++ pathStem "reuniao.mp3" ++ "_"
        ++ "20240101_120000" ++ ".pdf")) ∧
    ("20240101_120000" : String) = "20240101_120000" :=
  ⟨(C5_amended_pdf_naming "reuniao.mp3" "x" "y" "x" "y"
      "20240101_120000" "20240101_120000" "d" "d").1,
   (C5_amended_pdf_naming "reuniao.mp3" "x" "y" "x" "y"
      "20240101_120000" "20240101_120000" "d" "d").2.2 rfl⟩

/-- C7: when every stage up to rendering succeeds and the SMTP dispatch
fails, the rendered PDF stays on disk at its path (also recorded in the
session), the processed flag is not set, the user is shown the delivery
failure messages, and the success messages shown are exactly the three
pre-dispatch ones — no delivery success is reported. -/
theorem C7_dispatch_failure_keeps_artifact (inp : Inputs)
    (ext : Externos) (st : Session) (audio : AudioData) (t a : String)
    (hk : inp.openai_key ≠ "") (hau : inp.audio_file = some audio)
    (hd : inp.email_destino ≠ "") (hr : inp.email_remetente ≠ "")
    (hs : inp.senha_email ≠ "")
    (hw : ext.whisper = Except.ok t) (ht : t ≠ "")
    (hg : ext.gpt = Except.ok a) (ha : a ≠ "")
    (hsm : ext.smtp_ok = false) :
    (mainRun inp ext st).pdfNoDisco
      = some (pdfPath audio.name ext.timestamp) ∧
    (mainRun inp ext st).session.pdf_path
      = some (pdfPath audio.name ext.timestamp) ∧
    (mainRun inp ext st).session.processado = st.processado ∧
    (mainRun inp ext st).erros =
      ["Erro ao enviar email: exceção da chamada externa",
       "❌ Erro ao enviar email. Verifique as configurações SMTP."] ∧
    (mainRun inp ext st).sucessos =
      ["✅ Transcrição concluída!", "✅ Análise concluída!",
       "✅ PDF gerado!"] := by
  simp [mainRun, hk, hau, hd, hr, hs, hw, ht, hg, ha, hsm,
        transcrever_audio, analisar_com_ia, enviar_email, gerar_pdf]

/-- Witness for C7 at a concrete run whose SMTP session fails. -/
theorem C7_dispatch_failure_keeps_artifact_witness :
    (mainRun inpEx extFalhaEnvio sess0).pdfNoDisco
      = some (pdfPath audioEx.name extFalhaEnvio.timestamp) ∧
    (mainRun inpEx extFalhaEnvio sess0).session.pdf_path
      = some (pdfPath audioEx.name extFalhaEnvio.timestamp) ∧
    (mainRun inpEx extFalhaEnvio sess0).session.processado
      = sess0.processado ∧
    (mainRun inpEx extFalhaEnvio sess0).erros =
      ["Erro ao enviar email: exceção da chamada externa",
       "❌ Erro ao enviar email. Verifique as configurações SMTP."] ∧
    (mainRun inpEx extFalhaEnvio sess0).sucessos =
      ["✅ Transcrição concluída!", "✅ Análise concluída!",
       "✅ PDF gerado!"] :=
  C7_dispatch_failure_keeps_artifact inpEx extFalhaEnvio sess0 audioEx
    "Discutimos o orçamento." "## Resumo\nTexto."
    (by decide) rfl (by decide) (by decide) (by decide)
    rfl (by decide) rfl (by decide) rfl

/-- C8 counterexample: a run reaching a successful dispatch writes zero
usage records, not exactly one — the program has no usage-recording
code at all. -/
theorem C8_counterexample :
    (mainRun inpEx extOk sess0).chamadasEnvio = 1 ∧
    (mainRun inpEx extOk sess0).session.processado = true ∧
    (mainRun inpEx extOk sess0).registrosUso = 0 := by
  decide

/-- C8 amended: no run writes any usage record to any sink — the
program contains no usage-recording stage, so the record count is zero
on every path, including runs that reach a successful dispatch. -/
theorem C8_amended_no_usage_recording (inp : Inputs) (ext : Externos)
    (st : Session) :
    (mainRun inp ext st).registrosUso = 0 := by
  simp only [mainRun]
  (repeat' split) <;> simp [resultadoValidacao]

/-- C9 counterexample: a stereo 44.1 kHz upload is handed to the
transcription backend exactly as uploaded — not re-encoded to mono
16-bit 16 kHz PCM (isNormalizedPCM, written from the spec, fails on
it). -/
theorem C9_counterexample :
    (transcrever_audio audioEx (Except.ok "olá")).audioEnviado
      = some audioEx ∧
    ¬ isNormalizedPCM audioEx ∧
    (mainRun inpEx extOk sess0).audioEnviado = some audioEx := by
  decide

/-- C9 amended: there is no normalization stage — the uploaded audio
(bytes and format alike) is written to the temporary file and handed to
the transcription backend unchanged, on both the success and the
raising path of the external call. -/
theorem C9_amended_no_normalization (audio : AudioData)
    (w : Except Unit String) :
    (transcrever_audio audio w).audioEnviado = some audio := by
  cases w <;> simp [transcrever_audio]

/-- C10: if any of the four required inputs (API key, uploaded audio,
destination email, sender email plus password) is missing or empty, the
run stops with an error message before any pipeline stage: no external
call, no temporary file, no PDF, no usage record, and the session state
is unchanged. -/
theorem C10_validation_gates_pipeline (inp : Inputs) (ext : Externos)
    (st : Session)
    (h : inp.openai_key = "" ∨ inp.audio_file = none ∨
         inp.email_destino = "" ∨ inp.email_remetente = "" ∨
         inp.senha_email = "") :
    (mainRun inp ext st).session = st ∧
    (mainRun inp ext st).erros ≠ [] ∧
    (mainRun inp ext st).chamadasAnalise = 0 ∧
    (mainRun inp ext st).chamadasRender = 0 ∧
    (mainRun inp ext st).chamadasEnvio = 0 ∧
    (mainRun inp ext st).registrosUso = 0 ∧
    (mainRun inp ext st).tempCriados = 0 ∧
    (mainRun inp ext st).pdfNoDisco = none ∧
    (mainRun inp ext st).audioEnviado = none := by
  simp only [mainRun]
  (repeat' split) <;> simp_all [resultadoValidacao]

/-- Witness for C10 at a concrete run with a missing API key. -/
theorem C10_validation_gates_pipeline_witness :
    (mainRun { inpEx with openai_key := "" } extOk sess0).session
      = sess0 ∧
    (mainRun { inpEx with openai_key := "" } extOk sess0).erros ≠ [] ∧
    (mainRun { inpEx with openai_key := "" } extOk sess0).chamadasAnalise
      = 0 ∧
    (mainRun { inpEx with openai_key := "" } extOk sess0).chamadasRender
      = 0 ∧
    (mainRun { inpEx with openai_key := "" } extOk sess0).chamadasEnvio
      = 0 ∧
    (mainRun { inpEx with openai_key := "" } extOk sess0).registrosUso
      = 0 ∧
    (mainRun { inpEx with openai_key := "" } extOk sess0).tempCriados
      = 0 ∧
    (mainRun { inpEx with openai_key := "" } extOk sess0).pdfNoDisco
      = none ∧
    (mainRun { inpEx with openai_key := "" } extOk sess0).audioEnviado
      = none :=
  C10_validation_gates_pipeline { inpEx with openai_key := "" } extOk
    sess0 (Or.inl rfl)

/-- No analysis line ever converts to a PageBreak flowable. -/
theorem linhaParaElemento_ne_pageBreak (l : String) :
    linhaParaElemento l ≠ Element.pageBreak := by
  unfold linhaParaElemento
  (repeat' split) <;> simp

/-- The analysis block contains no PageBreak flowable. -/
theorem pageBreak_not_mem_analiseElementos (a : String) :
    Element.pageBreak ∉ analiseElementos a := by
  intro hmem
  simp only [analiseElementos, List.mem_map] at hmem
  obtain ⟨l, _, hl⟩ := hmem
  by_cases hb : pyStrip l = "" <;> simp [hb] at hl
  exact linhaParaElemento_ne_pageBreak l hl

/-- The transcript block contains no PageBreak flowable. -/
theorem pageBreak_not_mem_transcricaoElementos (t : String) :
    Element.pageBreak ∉ transcricaoElementos t := by
  intro hmem
  simp only [transcricaoElementos, List.mem_flatMap] at hmem
  obtain ⟨p, _, hp⟩ := hmem
  by_cases hb : pyStrip p = "" <;> simp [hb] at hp

/-- The eight flowables preceding the analysis block: title, metadata,
separator, analysis header, with their spacers. -/
def cabecalhoStory (nome d : String) : List Element :=
  [tituloElem, .spacer 1 12, metaElem nome d, .spacer 1 20,
   .para linhaSeparadora .normal, .spacer 1 20,
   .para "🧠 ANÁLISE E INSIGHTS" .subtitle, .spacer 1 12]

/-- The flowables following the PageBreak: transcript header, the
transcript block, and the footer. -/
def caudaStory (t : String) : List Element :=
  [.para "📝 TRANSCRIÇÃO COMPLETA" .subtitle, .spacer 1 12]
  ++ transcricaoElementos t
  ++ [.spacer 1 20, .para linhaSeparadora .normal,
      .para rodapeText .normal]

/-- The story splits as header-and-analysis, the PageBreak, then the
transcript part. -/
theorem gerarStory_decomp (nome d t a : String) :
    gerarStory nome d t a =
      (cabecalhoStory nome d ++ analiseElementos a)
        ++ Element.pageBreak :: caudaStory t := by
  simp [gerarStory, cabecalhoStory, caudaStory]

/-- Layout ordering of the assembled story: for every transcript and
analysis the flowable list has the title block first, the metadata
paragraph (whose text interpolates the source filename and the
generation time) at index 2, every flowable of the rendered analysis
before the document's single PageBreak, and every flowable of the
rendered transcript after it. (Whether each Paragraph's markup is
accepted by the external renderer is a separate question, modelled by
storyConstruivel below.) -/
theorem gerarStory_layout_ordering (nome d t a : String) :
    ∃ k, ((gerarStory nome d t a)[k]? = some Element.pageBreak ∧
      (gerarStory nome d t a).count Element.pageBreak = 1 ∧
      (gerarStory nome d t a)[0]? = some tituloElem ∧
      (gerarStory nome d t a)[2]? = some (metaElem nome d) ∧
      2 < k ∧
      (∀ e ∈ analiseElementos a, e ∈ (gerarStory nome d t a).take k) ∧
      (∀ e ∈ transcricaoElementos t,
        e ∈ (gerarStory nome d t a).drop (k + 1))) := by
  refine ⟨8 + (analiseElementos a).length, ?_, ?_, ?_, ?_, ?_, ?_, ?_⟩
  · rw [gerarStory_decomp]
    have hl : (cabecalhoStory nome d ++ analiseElementos a).length
        = 8 + (analiseElementos a).length := by
      simp [cabecalhoStory]; omega
    rw [List.getElem?_append_right (by omega), hl]
    simp
  · simp [gerarStory, List.count_append, List.count_cons,
          List.count_eq_zero.mpr (pageBreak_not_mem_analiseElementos a),
          List.count_eq_zero.mpr (pageBreak_not_mem_transcricaoElementos t),
          tituloElem, metaElem]
  · rw [gerarStory_decomp]
    simp [cabecalhoStory]
  · rw [gerarStory_decomp]
    simp [cabecalhoStory]
  · omega
  · intro e he
    rw [gerarStory_decomp]
    have hl : 8 + (analiseElementos a).length
        = (cabecalhoStory nome d ++ analiseElementos a).length := by
      simp [cabecalhoStory]; omega
    rw [hl, List.take_left]
    exact List.mem_append_right _ he
  · intro e he
    rw [gerarStory_decomp]
    have hd2 : (cabecalhoStory nome d ++ analiseElementos a)
        ++ Element.pageBreak :: caudaStory t =
        ((cabecalhoStory nome d ++ analiseElementos a)
          ++ [Element.pageBreak]) ++ caudaStory t := by
      simp
    have hl : 8 + (analiseElementos a).length + 1
        = ((cabecalhoStory nome d ++ analiseElementos a)
            ++ [Element.pageBreak]).length := by
      simp [cabecalhoStory]
      omega
    rw [hd2, hl, List.drop_left]
    simp only [caudaStory]
    refine List.mem_append_left _ (List.mem_append_right _ he)

/-- Number of non-overlapping occurrences of a (non-empty) pattern in a
string: one less than the number of segments the pattern splits the
string into. -/
def contaOcorrencias (padrao s : String) : Nat :=
  (pySplitOn s padrao).length - 1

/-- Necessary balance condition on a Paragraph's mini-HTML markup:
reportlab's Paragraph constructor parses its text's markup and raises
ValueError when a bold tag is opened but never closed, so a text whose
opening-tag count differs from its closing-tag count is rejected. -/
def markupBoldBalanceado (s : String) : Bool :=
  contaOcorrencias "<b>" s == contaOcorrencias "</b>" s

/-- Whether the external renderer accepts one flowable: a Paragraph is
accepted only when its bold markup balances; Spacer and PageBreak carry
no markup and never raise. -/
def elementoMarkupOk : Element → Bool
  | .para texto _ => markupBoldBalanceado texto
  | .spacer _ _ => true
  | .pageBreak => true

/-- Whether gerar_pdf gets through every Paragraph constructor of its
story without the external renderer raising: the error path of
rendering that is not a disk-write failure. -/
def storyConstruivel (story : List Element) : Bool :=
  story.all elementoMarkupOk

set_option maxRecDepth 40000 in
/-- C6: the code evaluated at the failing input. The bold-marker
conversion of src/app.py line 237 is one-sided: its first replace
already consumes every double-star marker, so the second replace finds
none, and an analysis line using inline bold becomes a Paragraph with
two opening and no closing bold tags. That unbalanced Paragraph is part
of the story gerar_pdf builds, and the external Paragraph constructor
raises on it — rendering fails inside gerar_pdf for a non-empty
in-scope analysis, before any disk write, while the same story with a
balanced analysis is accepted. -/
theorem C6_render_markup_bug :
    pyReplace "**importante**" "**" "<b>" = "<b>importante<b>" ∧
    pyReplace (pyReplace "**importante**" "**" "<b>") "**" "</b>"
      = "<b>importante<b>" ∧
    linhaParaElemento "**importante**"
      = Element.para "<b>importante<b>" Style.normal ∧
    markupBoldBalanceado "<b>importante<b>" = false ∧
    storyConstruivel
      (gerar_pdf "reuniao.mp3" "olá equipa" "**importante**"
        "20240101_120000" "01/01/2024 às 12:00").story = false ∧
    storyConstruivel
      (gerar_pdf "reuniao.mp3" "olá equipa" "## Resumo\nTexto."
        "20240101_120000" "01/01/2024 às 12:00").story = true := by
  decide
